import Mathlib

/-!
Shallow embedding of the health-check scripts `validate_system.py` and
`test_system.py` of the himira-buyer-mcp repository, together with proofs
about the runner, reporter and individual probes.

Effectful Python code is modelled by passing the outcome of each external
interaction (HTTP response, subprocess completion, raised exception) in
explicitly as an environment value; the Python control flow is translated
line by line into total Lean functions over those environments.
-/

/-- Result of one check: the `(success, message)` pair every `test_*`
method of `SystemValidator` returns. -/
structure CheckResult where
  passed : Bool
  message : String
deriving DecidableEq, Repr

/-- Outcome of invoking one test function inside the runner loop of
`run_validation_suite`: either it returns a `(passed, message)` pair or it
raises an exception whose `str()` is recorded. -/
inductive PyOutcome where
  | ret (r : CheckResult)
  | exc (msg : String)
deriving DecidableEq, Repr

/-- The record stored for one check by the loop body of
`SystemValidator.run_validation_suite` (lines 351-371): a returned pair is
stored as is, an exception is converted to a failed record with message
`f"Unexpected error: {e}"`.  The timestamp field is not modelled. -/
def recordOf : PyOutcome → CheckResult
  | .ret r => r
  | .exc e => { passed := false, message := "Unexpected error: " ++ e }

/-- The summary dictionary built at the end of `run_validation_suite`
(lines 379-387).  `success_rate` is `none` when the Python expression
`(passed_tests / total_tests) * 100` would raise `ZeroDivisionError`. -/
structure Summary where
  total_tests : Nat
  passed_tests : Nat
  failed_tests : Nat
  success_rate : Option ℚ
  results : List (String × CheckResult)

/-- Python `(passed / total) * 100` on ints: float division raises
`ZeroDivisionError` when `total = 0` (modelled as `none`); on the counts
reachable in these scripts the float result is exact, so `ℚ` is faithful. -/
def success_rate_py (passed total : Nat) : Option ℚ :=
  if total = 0 then none else some ((passed : ℚ) / (total : ℚ) * 100)

/-- Python `results[test_name] = record` on the dict `results`: an existing
key keeps its original position and gets the new value, a new key is
appended. -/
def dictInsert (rs : List (String × CheckResult)) (n : String) (r : CheckResult) :
    List (String × CheckResult) :=
  if rs.any (fun p => p.1 == n) then
    rs.map (fun p => if p.1 == n then (n, r) else p)
  else
    rs ++ [(n, r)]

/-- The `for i, (test_name, test_func) in enumerate(tests, 1)` loop of
`run_validation_suite`: accumulates the `results` dict and the
`passed_tests` counter. -/
def runLoop : List (String × PyOutcome) → List (String × CheckResult) → Nat →
    List (String × CheckResult) × Nat
  | [], acc, p => (acc, p)
  | (n, o) :: rest, acc, p =>
    let r := recordOf o
    runLoop rest (dictInsert acc n r) (if r.passed then p + 1 else p)

/-- The generic runner: executes a sequence of named checks (each with its
externally supplied outcome) exactly as the loop plus summary construction
of `run_validation_suite` (lines 344-387) does. -/
def runChecks (tests : List (String × PyOutcome)) : Summary :=
  let out := runLoop tests [] 0
  { total_tests := tests.length
    passed_tests := out.2
    failed_tests := tests.length - out.2
    success_rate := success_rate_py out.2 tests.length
    results := out.1 }

/-- The names of the ten registered checks of `validate_system.py`
(lines 331-342), in registration order. -/
def validationTests : List String :=
  ["Docker Services", "Qdrant Database", "Vector Search", "Himira API",
   "MCP Server", "ETL Pipeline", "Environment Config", "Port Accessibility",
   "Disk Space", "System Resources"]

/-- `SystemValidator.run_validation_suite`: runs the fixed registered list
of ten checks; `probe i` is the outcome of executing the `i`-th check. -/
def run_validation_suite (probe : Nat → PyOutcome) : Summary :=
  runChecks (validationTests.enum.map (fun p => (p.2, probe p.1)))

/-- The exit-code selection of `main` (lines 453-459): `0` when
`success_rate >= 90`, else `1` when `success_rate >= 70`, else `2`. -/
def exitCodeOf (rate : ℚ) : Nat :=
  if 90 ≤ rate then 0 else if 70 ≤ rate then 1 else 2

/-- Outcome of executing one statement region of `main`'s `try` block:
normal completion, a `KeyboardInterrupt`, or another exception. -/
inductive TryOutcome (α : Type) where
  | ok (a : α)
  | keyboardInterrupt
  | exc (msg : String)

/-- Environment for one execution of `main`: how the validation suite ran
(its per-check outcomes, or an interrupt/exception escaping it), how
writing `validation_report.json` went, and how the statements after the
`with` block committed the file — the `log_info` call and the exit-code
chain (lines 451-459) — went. -/
structure MainEnv where
  suite : TryOutcome (Nat → PyOutcome)
  write : TryOutcome Unit
  post : TryOutcome Unit

/-- `main` of `validate_system.py` (lines 436-466), returning the process
exit code and whether `validation_report.json` was completely written.
`KeyboardInterrupt` exits with `130`, any other exception with `1`;
otherwise the exit code is chosen from the summary's success rate.  An
interrupt or exception in the suite or in the report write leaves the
report not completely written; one in the region after the `with` block
(`log_info`, the exit-code chain) arrives with the report already
committed. -/
def mainRun (env : MainEnv) : Nat × Bool :=
  match env.suite with
  | .keyboardInterrupt => (130, false)
  | .exc _ => (1, false)
  | .ok probe =>
    match (run_validation_suite probe).success_rate with
    | none => (1, false)
    | some rate =>
      match env.write with
      | .keyboardInterrupt => (130, false)
      | .exc _ => (1, false)
      | .ok _ =>
        match env.post with
        | .keyboardInterrupt => (130, true)
        | .exc _ => (1, true)
        | .ok _ => (exitCodeOf rate, true)

/-- Outcome of one `subprocess.run` call: completion with a return code and
captured stdout/stderr, a `subprocess.TimeoutExpired`, or another
exception whose `str()` is recorded. -/
inductive SubprocessOutcome where
  | completed (returncode : Int) (stdout stderr : String)
  | timeoutExpired
  | error (msg : String)

/-- `SystemValidator.run_command` (lines 49-59): success iff the return
code is `0` with the combined `stdout + stderr` as message, `"Command
timed out"` on `TimeoutExpired`, `str(e)` on any other exception. -/
def run_command : SubprocessOutcome → Bool × String
  | .completed rc out err => (rc == 0, out ++ err)
  | .timeoutExpired => (false, "Command timed out")
  | .error e => (false, e)

/-- Whether the first list is a prefix of the second, by element
comparison (used to model the Python `in` substring operator). -/
def listStartsWith [DecidableEq α] : List α → List α → Bool
  | [], _ => true
  | _ :: _, [] => false
  | a :: as, b :: bs => if a = b then listStartsWith as bs else false

/-- Whether the first list occurs contiguously inside the second: the
Python substring operator `sub in s` on the character lists. -/
def listOccursIn [DecidableEq α] (pat : List α) : List α → Bool
  | [] => listStartsWith pat []
  | a :: t => listStartsWith pat (a :: t) || listOccursIn pat t

theorem runLoop_snd_le :
    ∀ (tests : List (String × PyOutcome)) (acc : List (String × CheckResult)) (p : Nat),
      (runLoop tests acc p).2 ≤ p + tests.length
  | [], _, _ => by simp [runLoop]
  | (n, o) :: rest, acc, p => by
    have h := runLoop_snd_le rest (dictInsert acc n (recordOf o))
      (if (recordOf o).passed then p + 1 else p)
    simp only [runLoop, List.length_cons]
    exact le_trans h (by split <;> omega)

theorem suiteTests_length (probe : Nat → PyOutcome) :
    (validationTests.enum.map (fun p => (p.2, probe p.1))).length = 10 := by
  rw [List.length_map, List.enum_length]
  rfl

theorem suite_total (probe : Nat → PyOutcome) :
    (run_validation_suite probe).total_tests = 10 := by
  show (validationTests.enum.map (fun p => (p.2, probe p.1))).length = 10
  exact suiteTests_length probe

theorem suite_passed_le (probe : Nat → PyOutcome) :
    (run_validation_suite probe).passed_tests ≤ 10 := by
  show (runLoop (validationTests.enum.map (fun p => (p.2, probe p.1))) [] 0).2 ≤ 10
  have h := runLoop_snd_le (validationTests.enum.map (fun p => (p.2, probe p.1))) [] 0
  rwa [suiteTests_length, Nat.zero_add] at h

theorem suite_rate_eq (probe : Nat → PyOutcome) :
    (run_validation_suite probe).success_rate
      = success_rate_py (run_validation_suite probe).passed_tests 10 := by
  show success_rate_py (runLoop (validationTests.enum.map (fun p => (p.2, probe p.1))) [] 0).2
        (validationTests.enum.map (fun p => (p.2, probe p.1))).length
      = success_rate_py (runLoop (validationTests.enum.map (fun p => (p.2, probe p.1))) [] 0).2 10
  rw [suiteTests_length]

theorem suite_rate_bounds (probe : Nat → PyOutcome) :
    ∃ r : ℚ, (run_validation_suite probe).success_rate = some r
      ∧ r = ((run_validation_suite probe).passed_tests : ℚ) / 10 * 100
      ∧ 0 ≤ r ∧ r ≤ 100 := by
  refine ⟨((run_validation_suite probe).passed_tests : ℚ) / 10 * 100, ?_, rfl, ?_, ?_⟩
  · rw [suite_rate_eq]
    simp [success_rate_py]
  · positivity
  · have hp : ((run_validation_suite probe).passed_tests : ℚ) ≤ 10 := by
      exact_mod_cast suite_passed_le probe
    nlinarith

theorem exitCode_iffs (r : ℚ) (h0 : 0 ≤ r) (h100 : r ≤ 100) :
    (exitCodeOf r = 0 ↔ 90 ≤ r ∧ r ≤ 100)
    ∧ (exitCodeOf r = 1 ↔ 70 ≤ r ∧ r < 90)
    ∧ (exitCodeOf r = 2 ↔ 0 ≤ r ∧ r < 70) := by
  unfold exitCodeOf
  split_ifs with h1 h2
  · exact ⟨⟨fun _ => ⟨h1, h100⟩, fun _ => rfl⟩,
      ⟨fun hx => absurd hx (by decide), fun hx => by exfalso; linarith [hx.2]⟩,
      ⟨fun hx => absurd hx (by decide), fun hx => by exfalso; linarith [hx.2]⟩⟩
  · exact ⟨⟨fun hx => absurd hx (by decide), fun hx => by exfalso; linarith [hx.1]⟩,
      ⟨fun _ => ⟨h2, by linarith⟩, fun _ => rfl⟩,
      ⟨fun hx => absurd hx (by decide), fun hx => by exfalso; linarith [hx.2]⟩⟩
  · exact ⟨⟨fun hx => absurd hx (by decide), fun hx => by exfalso; linarith [hx.1]⟩,
      ⟨fun hx => absurd hx (by decide), fun hx => by exfalso; linarith [hx.1]⟩,
      ⟨fun _ => ⟨h0, by linarith⟩, fun _ => rfl⟩⟩

/-- C1: for every run that reaches the exit-code selection of `main`
(lines 453-459), the exit code is `exitCodeOf success_rate`, and since the
computed success rate always lies in `[0, 100]`, exit code `0` is produced
iff the rate is in `[90, 100]`, `1` iff it is in `[70, 90)`, and `2` iff
it is in `[0, 70)`. -/
theorem c1_exit_code_mapping (probe : Nat → PyOutcome) :
    ∃ r : ℚ, (run_validation_suite probe).success_rate = some r
      ∧ mainRun ⟨TryOutcome.ok probe, TryOutcome.ok (), TryOutcome.ok ()⟩
          = (exitCodeOf r, true)
      ∧ (exitCodeOf r = 0 ↔ 90 ≤ r ∧ r ≤ 100)
      ∧ (exitCodeOf r = 1 ↔ 70 ≤ r ∧ r < 90)
      ∧ (exitCodeOf r = 2 ↔ 0 ≤ r ∧ r < 70) := by
  obtain ⟨r, hrate, -, h0, h100⟩ := suite_rate_bounds probe
  obtain ⟨i0, i1, i2⟩ := exitCode_iffs r h0 h100
  exact ⟨r, hrate, by simp [mainRun, hrate], i0, i1, i2⟩

/-- C3: on every run of the registered suite the success-rate computation
completes (no `ZeroDivisionError`, as the registered list has 10 checks,
never 0) and yields `100 * passed / total`, which lies in `[0, 100]`. -/
theorem c3_success_rate_total (probe : Nat → PyOutcome) :
    ∃ r : ℚ, (run_validation_suite probe).total_tests = 10
      ∧ (run_validation_suite probe).success_rate = some r
      ∧ r = 100 * ((run_validation_suite probe).passed_tests : ℚ)
            / ((run_validation_suite probe).total_tests : ℚ)
      ∧ 0 ≤ r ∧ r ≤ 100 := by
  obtain ⟨r, hrate, hval, h0, h100⟩ := suite_rate_bounds probe
  refine ⟨r, suite_total probe, hrate, ?_, h0, h100⟩
  rw [hval, suite_total probe]
  push_cast
  ring

theorem exitCodeOf_ne_130 (r : ℚ) : exitCodeOf r ≠ 130 := by
  unfold exitCodeOf
  split_ifs <;> decide

/-- Counterexample to C8 as stated: a `KeyboardInterrupt` arriving after
the `with` block has committed `validation_report.json` — during the
`log_info` call at line 451 or the exit-code chain — is still caught by
`except KeyboardInterrupt`, so the process exits `130` with the report
completely written, refuting the claim's "report not written" conjunct. -/
theorem c8_counterexample :
    mainRun ⟨TryOutcome.ok (fun _ => PyOutcome.ret ⟨true, "ok"⟩), TryOutcome.ok (),
      TryOutcome.keyboardInterrupt⟩ = (130, true) := by
  obtain ⟨r, hrate, -, -, -⟩ := suite_rate_bounds (fun _ => PyOutcome.ret ⟨true, "ok"⟩)
  simp [mainRun, hrate]

/-- C8 (amended): exit code `130` is produced exactly when a
`KeyboardInterrupt` occurs inside `main`'s `try` block (lines 444-463) —
escaping the suite, the report write, or the statements after the write;
an interrupt in the suite or the write leaves `validation_report.json`
not completely written, but an interrupt after the write has committed
(e.g. during `log_info`, line 451) exits `130` with the report completely
written. -/
theorem c8_keyboard_interrupt (env : MainEnv) :
    ((mainRun env).1 = 130 ↔
      env.suite = TryOutcome.keyboardInterrupt
        ∨ (env.write = TryOutcome.keyboardInterrupt
            ∧ ∃ p, env.suite = TryOutcome.ok p)
        ∨ (env.post = TryOutcome.keyboardInterrupt
            ∧ env.write = TryOutcome.ok ()
            ∧ ∃ p, env.suite = TryOutcome.ok p))
    ∧ ((env.suite = TryOutcome.keyboardInterrupt
          ∨ env.write = TryOutcome.keyboardInterrupt) →
        (mainRun env).2 = false)
    ∧ ((env.post = TryOutcome.keyboardInterrupt
          ∧ env.write = TryOutcome.ok ()
          ∧ ∃ p, env.suite = TryOutcome.ok p) →
        mainRun env = (130, true)) := by
  obtain ⟨suite, write, post⟩ := env
  cases suite with
  | keyboardInterrupt => simp [mainRun]
  | exc e => cases write <;> cases post <;> simp [mainRun]
  | ok probe =>
    obtain ⟨r, hrate, -, -, -⟩ := suite_rate_bounds probe
    cases write with
    | keyboardInterrupt => cases post <;> simp [mainRun, hrate]
    | exc e => cases post <;> simp [mainRun, hrate]
    | ok u =>
      cases u
      cases post with
      | keyboardInterrupt => simp [mainRun, hrate]
      | exc e2 => simp [mainRun, hrate]
      | ok u2 => simp [mainRun, hrate, exitCodeOf_ne_130]

/-- Witness for C8 (amended): an interrupt during the suite leaves the
report unwritten, while one after the committed write exits `130` with
the report written. -/
theorem c8_keyboard_interrupt_witness :
    (mainRun ⟨TryOutcome.keyboardInterrupt, TryOutcome.ok (), TryOutcome.ok ()⟩).2 = false
    ∧ mainRun ⟨TryOutcome.ok (fun _ => PyOutcome.ret ⟨true, "ok"⟩), TryOutcome.ok (),
        TryOutcome.keyboardInterrupt⟩ = (130, true) :=
  ⟨(c8_keyboard_interrupt
      ⟨TryOutcome.keyboardInterrupt, TryOutcome.ok (), TryOutcome.ok ()⟩).2.1 (Or.inl rfl),
   (c8_keyboard_interrupt
      ⟨TryOutcome.ok (fun _ => PyOutcome.ret ⟨true, "ok"⟩), TryOutcome.ok (),
        TryOutcome.keyboardInterrupt⟩).2.2 ⟨rfl, rfl, _, rfl⟩⟩

/-- C10: any exception other than `KeyboardInterrupt` escaping the suite
or the report write makes `main` exit with code `1` regardless of the
check outcomes, with the report not completely written. -/
theorem c10_unexpected_exception :
    (∀ (e : String) (w z : TryOutcome Unit), mainRun ⟨TryOutcome.exc e, w, z⟩ = (1, false))
    ∧ (∀ (probe : Nat → PyOutcome) (e : String) (z : TryOutcome Unit),
        mainRun ⟨TryOutcome.ok probe, TryOutcome.exc e, z⟩ = (1, false)) := by
  refine ⟨fun e w z => rfl, fun probe e z => ?_⟩
  obtain ⟨r, hrate, -, -, -⟩ := suite_rate_bounds probe
  simp [mainRun, hrate]

/-- C7: `run_command` fails with the distinct message `"Command timed
out"` (which contains `"timed out"`) on a subprocess timeout, returns the
combined stdout+stderr on completion, and succeeds exactly when the exit
code is `0`. -/
theorem c7_run_command :
    run_command SubprocessOutcome.timeoutExpired = (false, "Command timed out")
    ∧ listOccursIn "timed out".data "Command timed out".data = true
    ∧ (∀ (rc : Int) (out err : String),
        run_command (SubprocessOutcome.completed rc out err) = ((rc == 0), out ++ err))
    ∧ (∀ env : SubprocessOutcome,
        ((run_command env).1 = true ↔
          ∃ out err, env = SubprocessOutcome.completed 0 out err)) := by
  refine ⟨rfl, by decide, fun rc out err => rfl, fun env => ?_⟩
  cases env with
  | completed rc out err => simp [run_command]
  | timeoutExpired => simp [run_command]
  | error e => simp [run_command]

theorem dictInsert_not_mem (acc : List (String × CheckResult)) (n : String)
    (r : CheckResult) (h : ∀ q ∈ acc, q.1 ≠ n) :
    dictInsert acc n r = acc ++ [(n, r)] := by
  unfold dictInsert
  rw [if_neg]
  simp only [List.any_eq_true, beq_iff_eq, not_exists, not_and]
  exact fun q hq => h q hq

theorem runLoop_nodup :
    ∀ (tests : List (String × PyOutcome)) (acc : List (String × CheckResult)) (p : Nat),
      (∀ t ∈ tests, ∀ q ∈ acc, q.1 ≠ t.1) →
      (tests.map Prod.fst).Nodup →
      (runLoop tests acc p).1 = acc ++ tests.map (fun t => (t.1, recordOf t.2))
  | [], acc, p, _, _ => by simp [runLoop]
  | (n, o) :: rest, acc, p, hd, hnd => by
    have hnd' : (n :: rest.map Prod.fst).Nodup := by
      rw [List.map_cons] at hnd
      exact hnd
    have hnotin : n ∉ rest.map Prod.fst := (List.nodup_cons.1 hnd').1
    have hrest : (rest.map Prod.fst).Nodup := (List.nodup_cons.1 hnd').2
    have hd2 : ∀ t ∈ rest, ∀ q ∈ acc ++ [(n, recordOf o)], q.1 ≠ t.1 := by
      intro t ht q hq
      rcases List.mem_append.1 hq with hq | hq
      · exact hd t (List.mem_cons_of_mem _ ht) q hq
      · have hq' : q = (n, recordOf o) := by simpa using hq
        subst hq'
        intro hcontra
        have hn : n = t.1 := hcontra
        exact hnotin (by
          rw [hn]
          exact List.mem_map_of_mem Prod.fst ht)
    simp only [runLoop]
    rw [dictInsert_not_mem acc n (recordOf o)
      (fun q hq => hd (n, o) (List.mem_cons_self _ _) q hq)]
    rw [runLoop_nodup rest (acc ++ [(n, recordOf o)])
      (if (recordOf o).passed then p + 1 else p) hd2 hrest]
    simp

/-- C2 (amended): when the registered check names are distinct — as they
are in the registered suite — the runner records exactly one result per
check, and a check whose probe raises is recorded at its position as a
failed result without aborting the remaining checks. -/
theorem c2_records_per_check (tests : List (String × PyOutcome))
    (i : Nat) (n e : String)
    (hnd : (tests.map Prod.fst).Nodup) :
    (runChecks tests).results.length = tests.length
    ∧ (tests[i]? = some (n, PyOutcome.exc e) →
        (runChecks tests).results[i]?
          = some (n, { passed := false, message := "Unexpected error: " ++ e })) := by
  have hres : (runChecks tests).results = tests.map (fun t => (t.1, recordOf t.2)) := by
    show (runLoop tests [] 0).1 = _
    simpa using runLoop_nodup tests [] 0 (by simp) hnd
  constructor
  · rw [hres, List.length_map]
  · intro hi
    rw [hres, List.getElem?_map, hi]
    rfl

/-- Witness for C2 (amended) on a two-check suite whose first check
raises. -/
theorem c2_records_per_check_witness :
    (runChecks [("A", PyOutcome.exc "boom"),
                ("B", PyOutcome.ret ⟨true, "ok"⟩)]).results.length = 2
    ∧ (runChecks [("A", PyOutcome.exc "boom"),
                  ("B", PyOutcome.ret ⟨true, "ok"⟩)]).results[0]?
        = some ("A", { passed := false, message := "Unexpected error: boom" }) := by
  have h := c2_records_per_check
    [("A", PyOutcome.exc "boom"), ("B", PyOutcome.ret ⟨true, "ok"⟩)]
    0 "A" "boom" (by decide)
  exact ⟨h.1, h.2 rfl⟩

/-- Counterexample to C2 as stated: `results` is a Python dict keyed by
check name, so a sequence of two checks sharing the name `"A"` yields a
single record, not two. -/
theorem c2_counterexample :
    (runChecks [("A", PyOutcome.ret ⟨true, "ok"⟩),
                ("A", PyOutcome.ret ⟨false, "down"⟩)]).results.length = 1
    ∧ ([("A", PyOutcome.ret ⟨true, "ok"⟩),
        ("A", PyOutcome.ret ⟨false, "down"⟩)] : List (String × PyOutcome)).length = 2 := by
  exact ⟨rfl, rfl⟩

/-- Python exceptions that the probe bodies can raise.  Only
`requestException` is caught by the `except requests.RequestException`
clause of `test_qdrant_health`. -/
inductive PyExc where
  | requestException (msg : String)
  | keyError (key : String)
  | typeError (msg : String)
  | attributeError (msg : String)
  | indexError (idx : Nat)
deriving DecidableEq, Repr

/-- A parsed JSON value as Python sees it after `response.json()`.
Numbers are modelled as integers, the only kind these probes meet. -/
inductive JVal where
  | null
  | jbool (b : Bool)
  | jnum (n : Int)
  | jstr (s : String)
  | jarr (elems : List JVal)
  | jobj (fields : List (String × JVal))

mutual

/-- Python `repr` of a parsed JSON value. -/
def pyRepr : JVal → String
  | .null => "None"
  | .jbool true => "True"
  | .jbool false => "False"
  | .jnum n => toString n
  | .jstr s => "\x27" ++ s ++ "\x27"
  | .jarr xs => "[" ++ pyReprArr xs ++ "]"
  | .jobj fs => "\x7b" ++ pyReprObj fs ++ "\x7d"

/-- Comma-separated `repr`s of list elements. -/
def pyReprArr : List JVal → String
  | [] => ""
  | [x] => pyRepr x
  | x :: y :: t => pyRepr x ++ ", " ++ pyReprArr (y :: t)

/-- Comma-separated `repr`s of dict entries. -/
def pyReprObj : List (String × JVal) → String
  | [] => ""
  | [(k, v)] => "\x27" ++ k ++ "\x27: " ++ pyRepr v
  | (k, v) :: y :: t => "\x27" ++ k ++ "\x27: " ++ pyRepr v ++ ", " ++ pyReprObj (y :: t)

end

/-- Python `str` of a parsed JSON value (what an f-string interpolates):
the string itself for strings, `repr` otherwise. -/
def pyStr : JVal → String
  | .jstr s => s
  | v => pyRepr v

/-- Python `value.get(key, default)`: only dicts have `.get`; any other
value raises `AttributeError`. -/
def dictGet : JVal → String → JVal → Except PyExc JVal
  | .jobj fs, k, d => Except.ok ((fs.lookup k).getD d)
  | _, _, _ => Except.error (PyExc.attributeError "get")

/-- Python `value[key]`: a missing key raises `KeyError`, a non-dict
raises `TypeError`. -/
def pyGetItem : JVal → String → Except PyExc JVal
  | .jobj fs, k =>
    match fs.lookup k with
    | some v => Except.ok v
    | none => Except.error (PyExc.keyError k)
  | _, k => Except.error (PyExc.typeError k)

/-- Python iteration over a parsed JSON value: lists yield elements, dicts
yield their keys, strings yield their characters, anything else raises
`TypeError`. -/
def pyIterate : JVal → Except PyExc (List JVal)
  | .jarr xs => Except.ok xs
  | .jobj fs => Except.ok (fs.map (fun f => JVal.jstr f.1))
  | .jstr s => Except.ok (s.data.map (fun c => JVal.jstr (String.singleton c)))
  | _ => Except.error (PyExc.typeError "not iterable")

/-- Python `value == some_string` as used by the `in` membership test:
true only for an equal JSON string. -/
def isStrEq : JVal → String → Bool
  | .jstr t, s => t == s
  | _, _ => false

/-- Outcome of one `requests.get`/`requests.post` call: a response with a
status code and parsed JSON body, or a raised `requests.RequestException`
(which, in the `requests` version these scripts use, also covers a JSON
decode failure of `response.json()`). -/
inductive HttpResult where
  | resp (status : Nat) (body : JVal)
  | raised (msg : String)

/-- Environment for one execution of `test_qdrant_health`: the outcomes of
its three HTTP GETs (`/health`, `/collections`,
`/collections/ondc_products`). -/
structure QdrantEnv where
  health : HttpResult
  collections : HttpResult
  detail : HttpResult

/-- The `try` body of `SystemValidator.test_qdrant_health`
(lines 97-124), translated statement by statement. -/
def test_qdrant_health_body (env : QdrantEnv) : Except PyExc (Bool × String) := do
  match env.health with
  | .raised m => throw (PyExc.requestException m)
  | .resp st _ =>
    if st ≠ 200 then
      return (false, "Qdrant health check failed: HTTP " ++ toString st)
    else
      match env.collections with
      | .raised m => throw (PyExc.requestException m)
      | .resp st2 data =>
        if st2 ≠ 200 then
          return (false, "Failed to get collections: HTTP " ++ toString st2)
        else do
          let resultVal ← dictGet data "result" (JVal.jobj [])
          let collsVal ← dictGet resultVal "collections" (JVal.jarr [])
          let collElems ← pyIterate collsVal
          let collNames ← collElems.mapM (fun c => pyGetItem c "name")
          if ¬ (collNames.any (fun c => isStrEq c "ondc_products")) then
            return (false, "ondc_products collection not found")
          else
            match env.detail with
            | .raised m => throw (PyExc.requestException m)
            | .resp st3 cdata =>
              if st3 = 200 then do
                let resVal ← dictGet cdata "result" (JVal.jobj [])
                let pc ← dictGet resVal "points_count" (JVal.jnum 0)
                let vc ← dictGet resVal "vectors_count" (JVal.jnum 0)
                return (true, "Qdrant OK - " ++ pyStr pc ++ " points, "
                  ++ pyStr vc ++ " vectors")
              else
                return (true, "Qdrant OK - collection details unavailable")

/-- `SystemValidator.test_qdrant_health` (lines 93-126): the `try` body
with its `except requests.RequestException` handler; any other exception
escapes the method. -/
def test_qdrant_health (env : QdrantEnv) : Except PyExc (Bool × String) :=
  match test_qdrant_health_body env with
  | .error (.requestException m) => Except.ok (false, "Qdrant connection failed: " ++ m)
  | other => other

/-- The whitespace set of Python `str.strip()` / `str.split()`. -/
def isPyWS (c : Char) : Bool :=
  c = ' ' || c = '\t' || c = '\n' || c = '\r' || c = '\x0b' || c = '\x0c'

/-- Python `s.strip()`. -/
def pyStrip (s : String) : String :=
  String.mk (((s.data.dropWhile isPyWS).reverse.dropWhile isPyWS).reverse)

/-- Python `s.split()` with no separator: split on whitespace runs,
discarding empty fields. -/
def pySplitWS (s : String) : List String :=
  (s.split isPyWS).filter (fun w => w ≠ "")

/-- Python `l[i]` on a list: `IndexError` when out of range. -/
def pyIndexList (l : List α) (i : Nat) : Except PyExc α :=
  match l[i]? with
  | some a => Except.ok a
  | none => Except.error (PyExc.indexError i)

/-- `SystemValidator.test_disk_space` (lines 291-309): parses `df -h .`
output; the inner bare `except` converts any error while extracting the
available column into a passing fallback result. -/
def test_disk_space (env : SubprocessOutcome) : Except PyExc (Bool × String) :=
  let res := run_command env
  if res.1 = false then
    Except.ok (false, "Failed to check disk space: " ++ res.2)
  else
    let lines := (pyStrip res.2).splitOn "\n"
    if lines.length < 2 then
      Except.ok (false, "Unexpected df output format")
    else
      match (do
        let line1 ← pyIndexList lines 1
        let fields := pySplitWS line1
        let available ← if fields.length > 3 then pyIndexList fields 3 else pure "Unknown"
        pure (true, "Available disk space: " ++ available) : Except PyExc (Bool × String)) with
      | .ok r => Except.ok r
      | .error _ => Except.ok (true, "Disk space check completed")

/-- Whether a probe outcome is an escaped `requests.RequestException`. -/
def escapedRequest : Except PyExc (Bool × String) → Bool
  | .error (.requestException _) => true
  | _ => false

/-- Whether a probe outcome is a returned result (no escaped error). -/
def exceptIsOk : Except PyExc (Bool × String) → Bool
  | .ok _ => true
  | .error _ => false

/-- Counterexample to C4 as stated: with the collections endpoint
answering `200` with body `{"result": {"collections": [{}]}}` — a
collection entry without a `"name"` key — the list comprehension
`[c['name'] for c in ...]` raises `KeyError('name')`, which is not a
`requests.RequestException` and therefore escapes the check instead of
being converted to a failed result inside it. -/
theorem c4_counterexample :
    test_qdrant_health
      { health := HttpResult.resp 200 JVal.null
        collections := HttpResult.resp 200
          (JVal.jobj [("result", JVal.jobj [("collections", JVal.jarr [JVal.jobj []])])])
        detail := HttpResult.resp 200 JVal.null }
      = Except.error (PyExc.keyError "name") := by
  rfl

/-- C4 (amended): network errors, command failures and timeouts are
caught inside the probes — `test_qdrant_health` never lets a
`requests.RequestException` escape and converts a raised network error to
a failed result carrying the cause, and `test_disk_space` always returns
a result — but a JSON shape error (such as a collection entry without a
`"name"` key) escapes `test_qdrant_health` and is handled only at the
runner's per-check boundary. -/
theorem test_disk_space_isOk (env : SubprocessOutcome) :
    exceptIsOk (test_disk_space env) = true := by
  unfold test_disk_space
  generalize run_command env = res
  obtain ⟨b, msg⟩ := res
  dsimp only
  split
  · rfl
  · split
    · rfl
    · split <;> rfl

theorem c4_error_containment :
    (∀ env : QdrantEnv, escapedRequest (test_qdrant_health env) = false)
    ∧ (∀ (m : String) (c d : HttpResult),
        test_qdrant_health { health := HttpResult.raised m, collections := c, detail := d }
          = Except.ok (false, "Qdrant connection failed: " ++ m))
    ∧ (∀ env : SubprocessOutcome, exceptIsOk (test_disk_space env) = true) := by
  refine ⟨fun env => ?_, fun m c d => rfl, fun env => test_disk_space_isOk env⟩
  unfold test_qdrant_health
  cases hb : test_qdrant_health_body env with
  | ok r => simp [escapedRequest]
  | error e => cases e <;> simp [escapedRequest]

/-- Counterexample to C5 as stated: when the collection-details endpoint
`GET /collections/ondc_products` answers `404` (collection not found at
that moment), `test_qdrant_health` returns a PASSING result whose message
does not contain `"404"`. -/
theorem c5_counterexample :
    test_qdrant_health
      { health := HttpResult.resp 200 JVal.null
        collections := HttpResult.resp 200
          (JVal.jobj [("result", JVal.jobj [("collections",
            JVal.jarr [JVal.jobj [("name", JVal.jstr "ondc_products")]])])])
        detail := HttpResult.resp 404 JVal.null }
      = Except.ok (true, "Qdrant OK - collection details unavailable")
    ∧ listOccursIn "404".data "Qdrant OK - collection details unavailable".data = false := by
  exact ⟨rfl, by decide⟩

/-- C5 (amended): a `404` from the health request or from the
collections-listing request yields a failed result whose message contains
`"404"`; only the collection-details request treats `404` as a pass
(with message `"Qdrant OK - collection details unavailable"`, per the
counterexample). -/
theorem c5_http_404 (b1 b2 b3 : JVal) (hc dc : HttpResult) :
    (test_qdrant_health { health := HttpResult.resp 404 b1, collections := hc, detail := dc }
        = Except.ok (false, "Qdrant health check failed: HTTP 404")
      ∧ listOccursIn "404".data "Qdrant health check failed: HTTP 404".data = true)
    ∧ (test_qdrant_health
        { health := HttpResult.resp 200 b2, collections := HttpResult.resp 404 b3, detail := dc }
        = Except.ok (false, "Failed to get collections: HTTP 404")
      ∧ listOccursIn "404".data "Failed to get collections: HTTP 404".data = true) := by
  exact ⟨⟨rfl, by decide⟩, ⟨rfl, by decide⟩⟩

theorem listStartsWith_iff [DecidableEq α] :
    ∀ (p l : List α), listStartsWith p l = true ↔ ∃ r, l = p ++ r
  | [], l => by simp [listStartsWith]
  | a :: as, [] => by
    constructor
    · intro h
      exact absurd h (by simp [listStartsWith])
    · rintro ⟨r, hr⟩
      exact absurd hr (by simp)
  | a :: as, b :: bs => by
    constructor
    · intro h
      unfold listStartsWith at h
      split_ifs at h with hab
      subst hab
      obtain ⟨r, hr⟩ := (listStartsWith_iff as bs).1 h
      exact ⟨r, by simp [hr]⟩
    · rintro ⟨r, hr⟩
      rw [List.cons_append] at hr
      injection hr with h1 h2
      subst h1
      unfold listStartsWith
      rw [if_pos rfl]
      exact (listStartsWith_iff as bs).2 ⟨r, h2⟩

theorem listOccursIn_iff [DecidableEq α] :
    ∀ (p l : List α), listOccursIn p l = true ↔ ∃ l₁ l₂, l = l₁ ++ p ++ l₂
  | p, [] => by
    unfold listOccursIn
    rw [listStartsWith_iff]
    constructor
    · rintro ⟨r, hr⟩
      exact ⟨[], r, by simpa using hr⟩
    · rintro ⟨l₁, l₂, h⟩
      have h' := h.symm
      rw [List.append_eq_nil] at h'
      obtain ⟨h1, h2⟩ := h'
      rw [List.append_eq_nil] at h1
      obtain ⟨h3, h4⟩ := h1
      exact ⟨[], by simp [h4]⟩
  | p, a :: t => by
    unfold listOccursIn
    rw [Bool.or_eq_true, listStartsWith_iff, listOccursIn_iff p t]
    constructor
    · rintro (⟨r, hr⟩ | ⟨l₁, l₂, h⟩)
      · exact ⟨[], r, by simpa using hr⟩
      · exact ⟨a :: l₁, l₂, by rw [h]; simp⟩
    · rintro ⟨l₁, l₂, h⟩
      cases l₁ with
      | nil => exact Or.inl ⟨l₂, by simpa using h⟩
      | cons x xs =>
        right
        rw [List.cons_append, List.cons_append] at h
        injection h with h1 h2
        exact ⟨xs, l₂, h2⟩

theorem stringEqOfData {a b : String} (h : a.data = b.data) : a = b :=
  congrArg String.mk h

theorem strData_append (a b : String) : (a ++ b).data = a.data ++ b.data := rfl

/-- Python `sub in s` on strings. -/
def pyInStr (sub s : String) : Bool := listOccursIn sub.data s.data

theorem pyInStr_iff (sub s : String) :
    pyInStr sub s = true ↔ ∃ pre post : String, s = pre ++ sub ++ post := by
  unfold pyInStr
  rw [listOccursIn_iff]
  constructor
  · rintro ⟨l₁, l₂, h⟩
    refine ⟨String.mk l₁, String.mk l₂, stringEqOfData ?_⟩
    rw [strData_append, strData_append]
    exact h
  · rintro ⟨pre, post, h⟩
    exact ⟨pre.data, post.data, by rw [h, strData_append, strData_append]⟩

/-- The three success markers `test_mcp_server_logs` looks for in the
container logs (lines 197-201). -/
def successIndicators : List String :=
  ["MCP Server initialized successfully", "Vector search: Enabled",
   "Vector search auto-initialized: True"]

/-- `SystemValidator.test_mcp_server_logs` (lines 188-211): fetches the
container logs via `run_command` and passes iff at least one of the three
markers occurs in the output, reporting how many were found. -/
def test_mcp_server_logs (env : SubprocessOutcome) : Bool × String :=
  let res := run_command env
  if res.1 = false then
    (false, "Failed to get MCP server logs: " ++ res.2)
  else
    let found := successIndicators.filter (fun ind => pyInStr ind res.2)
    if found ≠ [] then
      (true, "MCP Server OK - Found: " ++ toString found.length ++ "/3 success indicators")
    else
      (false, "MCP Server may not be properly initialized")

theorem test_mcp_server_logs_retrieved (out err : String) :
    test_mcp_server_logs (SubprocessOutcome.completed 0 out err)
      = (if (successIndicators.filter (fun ind => pyInStr ind (out ++ err))) ≠ [] then
          (true, "MCP Server OK - Found: "
            ++ toString (successIndicators.filter
                (fun ind => pyInStr ind (out ++ err))).length
            ++ "/3 success indicators")
        else
          (false, "MCP Server may not be properly initialized")) := by
  unfold test_mcp_server_logs run_command
  simp

/-- C6: after a successful log retrieval (`docker logs` exiting `0` with
combined output `out ++ err`), `test_mcp_server_logs` passes iff at least
one of the three expected markers occurs in the text, and its success
message reports how many of the 3 expected markers were found. -/
theorem c6_log_marker (out err : String) :
    ((test_mcp_server_logs (SubprocessOutcome.completed 0 out err)).1 = true
      ↔ ∃ ind ∈ successIndicators, ∃ pre post : String, out ++ err = pre ++ ind ++ post)
    ∧ ((test_mcp_server_logs (SubprocessOutcome.completed 0 out err)).1 = true →
        (test_mcp_server_logs (SubprocessOutcome.completed 0 out err)).2
          = "MCP Server OK - Found: "
            ++ toString (successIndicators.filter
                (fun ind => pyInStr ind (out ++ err))).length
            ++ "/3 success indicators") := by
  have hiff : (∃ ind ∈ successIndicators, ∃ pre post : String,
      out ++ err = pre ++ ind ++ post)
      ↔ (successIndicators.filter (fun ind => pyInStr ind (out ++ err))) ≠ [] := by
    constructor
    · rintro ⟨ind, hmem, hdec⟩
      intro hnil
      have hno := List.filter_eq_nil_iff.1 hnil ind hmem
      exact hno ((pyInStr_iff ind (out ++ err)).2 hdec)
    · intro hne
      obtain ⟨ind, hmem⟩ := List.exists_mem_of_ne_nil _ hne
      have hm := List.mem_filter.1 hmem
      exact ⟨ind, hm.1, (pyInStr_iff ind (out ++ err)).1 hm.2⟩
  rw [test_mcp_server_logs_retrieved out err]
  by_cases hf : (successIndicators.filter (fun ind => pyInStr ind (out ++ err))) = []
  · rw [if_neg (not_not_intro hf)]
    constructor
    · constructor
      · intro h
        simp at h
      · intro hex
        exact absurd hf (hiff.1 hex)
    · intro h
      simp at h
  · rw [if_pos hf]
    exact ⟨⟨fun _ => hiff.2 hf, fun _ => rfl⟩, fun _ => rfl⟩

/-- Witness for C6 on a log text containing exactly one of the three
markers. -/
theorem c6_log_marker_witness :
    (test_mcp_server_logs
      (SubprocessOutcome.completed 0 "x Vector search: Enabled y" "")).1 = true
    ∧ (test_mcp_server_logs
        (SubprocessOutcome.completed 0 "x Vector search: Enabled y" "")).2
        = "MCP Server OK - Found: 1/3 success indicators" := by
  have h := (c6_log_marker "x Vector search: Enabled y" "").2 (by decide)
  exact ⟨by decide, h.trans (by decide)⟩

/-- The three container names `test_docker_services` of `test_system.py`
expects to be running (line 118). -/
def expectedServices : List String :=
  ["himira-qdrant", "himira-etl", "ondc-mcp-server"]

/-- The container names parsed from the `docker ps` stdout by
`test_docker_services` (lines 117-124): split the stripped output into
lines (empty output gives no lines) and take the first tab-separated
field of each line. -/
def dockerNames (stdout : String) : List String :=
  let running := if pyStrip stdout ≠ "" then (pyStrip stdout).splitOn "\n" else []
  running.map (fun line => (line.splitOn "\t").headD "")

/-- `test_docker_services` of `test_system.py` (lines 107-140): collects
the expected containers found among the running ones; if any are missing
it passes iff at least one was found, otherwise it passes; a failing
`docker` command or an exception yields a fail. -/
def test_docker_services (env : SubprocessOutcome) : Bool :=
  match env with
  | .completed rc out _ =>
    if rc = 0 then
      let found := (dockerNames out).filter (fun n => expectedServices.contains n)
      let missing := expectedServices.filter (fun s => ¬ found.contains s)
      if missing ≠ [] then decide (found.length > 0) else true
    else false
  | .timeoutExpired => false
  | .error _ => false

theorem dockerFound_ne_nil_iff (out : String) :
    (dockerNames out).filter (fun n => expectedServices.contains n) ≠ []
      ↔ ∃ s ∈ expectedServices, s ∈ dockerNames out := by
  constructor
  · intro hne
    obtain ⟨n, hn⟩ := List.exists_mem_of_ne_nil _ hne
    have hm := List.mem_filter.1 hn
    exact ⟨n, by simpa using hm.2, hm.1⟩
  · rintro ⟨s, hsmem, hsnames⟩
    intro hnil
    have hno := List.filter_eq_nil_iff.1 hnil s hsnames
    exact hno (by simpa using hsmem)

/-- C9: with the `docker ps` subprocess completing, `test_docker_services`
of `test_system.py` passes iff the command exited `0` and at least one of
the three expected containers appears among the running container names
(so one or two present out of three is a pass); a failed command, a
timeout or another exception yields a fail. -/
theorem c9_docker_services :
    (∀ (rc : Int) (out err : String),
      (test_docker_services (SubprocessOutcome.completed rc out err) = true
        ↔ rc = 0 ∧ ∃ s ∈ expectedServices, s ∈ dockerNames out))
    ∧ test_docker_services SubprocessOutcome.timeoutExpired = false
    ∧ (∀ e, test_docker_services (SubprocessOutcome.error e) = false) := by
  refine ⟨fun rc out err => ?_, rfl, fun e => rfl⟩
  simp only [test_docker_services]
  by_cases hrc : rc = 0
  · rw [if_pos hrc]
    by_cases hm : (expectedServices.filter
        (fun s => ¬ ((dockerNames out).filter
          (fun n => expectedServices.contains n)).contains s)) = []
    · rw [if_neg (not_not_intro hm)]
      have hq := List.filter_eq_nil_iff.1 hm "himira-qdrant" (by simp [expectedServices])
      have hq2 : ((dockerNames out).filter
          (fun n => expectedServices.contains n)).contains "himira-qdrant" = true := by
        simpa using hq
      have hmem : "himira-qdrant" ∈ (dockerNames out).filter
          (fun n => expectedServices.contains n) := by
        simpa using hq2
      have hfm := List.mem_filter.1 hmem
      exact ⟨fun _ => ⟨hrc, "himira-qdrant", by simpa using hfm.2, hfm.1⟩,
        fun _ => rfl⟩
    · rw [if_pos hm]
      rw [decide_eq_true_iff, gt_iff_lt, List.length_pos]
      constructor
      · intro hne
        exact ⟨hrc, (dockerFound_ne_nil_iff out).1 hne⟩
      · intro hx
        exact (dockerFound_ne_nil_iff out).2 hx.2
  · rw [if_neg hrc]
    constructor
    · intro h
      simp at h
    · intro hx
      exact absurd hx.1 hrc
